import Mathlib

/-!
Shallow embedding of the openai-gateway request router/translator and
dual-listener lifecycle controller (internal/gateway/openai.go).

HTTP I/O, the JSON codec and the system clock are abstracted as explicit
oracles (`Codec`, `World`); each handler is a pure function from the inbound
request and those oracles to the HTTP response it writes plus the list of
outbound upstream calls it performs.
-/

set_option linter.unusedVariables false

namespace Gateway

/-- `OpenAIChatRequest`: inbound chat-completion request (model, messages). -/
structure MessageItem where
  role : String
  content : String
deriving DecidableEq, Repr

structure OpenAIChatRequest where
  model : String
  messages : List MessageItem
deriving DecidableEq, Repr

structure Choice where
  index : Int
  message : MessageItem
  finishReason : String
deriving DecidableEq, Repr

structure TokenUsage where
  promptTokens : Int
  completionTokens : Int
  totalTokens : Int
deriving DecidableEq, Repr

structure OpenAIChatResponse where
  id : String
  object : String
  created : Int
  model : String
  choices : List Choice
  usage : TokenUsage
deriving DecidableEq, Repr

/-- Open-WebUI upstream reply shape: message plus status. -/
structure OpenWebUIChatResponse where
  message : MessageItem
  status : String
deriving DecidableEq, Repr

/-- Upstream model descriptor (declared in openai.go; note: never used there). -/
structure OpenWebUIModel where
  id : String
  name : String
  status : String
deriving DecidableEq, Repr

/-- Application configuration (gateway.Config). -/
structure Config where
  port : Int
  openWebUIURL : String
  quitPort : Int
  shutdownTimeoutSec : Int
deriving DecidableEq, Repr

/-- Result of an io.ReadAll: the full body, or a read error together with the
bytes obtained before the failure (Go returns both the partial slice and err). -/
inductive ReadResult where
  | ok (s : String)
  | failed (partialBytes : String)
deriving DecidableEq, Repr

/-- `bodyBytes, _ := io.ReadAll(...)`: use whatever bytes were read, ignore err. -/
def readAllIgnoringError : ReadResult → String
  | .ok s => s
  | .failed s => s

/-- An outbound HTTP call built with http.NewRequest and executed by a Client.
`timeoutSec = some n` models a Client constructed with an n-second Timeout. -/
structure OutboundCall where
  method : String
  url : String
  headers : List (String × String)
  body : Option String
  timeoutSec : Option Nat
deriving DecidableEq, Repr

/-- A reply obtained from the upstream: status, headers, and body read. -/
structure UpstreamReply where
  status : Nat
  headers : List (String × String)
  body : ReadResult
deriving DecidableEq, Repr

/-- Result of Client.Do: transport error (incl. timeout), or a reply. -/
inductive CallResult where
  | transportError
  | reply (r : UpstreamReply)
deriving DecidableEq, Repr

/-- The HTTP response the gateway writes back to its caller. -/
structure HttpResponse where
  status : Nat
  headers : List (String × String)
  body : String
deriving DecidableEq, Repr

/-- Go http.Error: sets text/plain headers, the status code, and writes the
message followed by a newline. -/
def httpError (msg : String) (code : Nat) : HttpResponse :=
  { status := code
    headers := [("Content-Type", "text/plain; charset=utf-8"),
                ("X-Content-Type-Options", "nosniff")]
    body := msg ++ "\n" }

/-- A handler run: the response written plus the outbound calls performed. -/
structure Outcome where
  response : HttpResponse
  upstreamCalls : List OutboundCall
deriving DecidableEq, Repr

/-- The inbound HTTP request as the handlers observe it: method, URL path,
headers, and the result of io.ReadAll on its body. -/
structure Request where
  method : String
  path : String
  headers : List (String × String)
  bodyRead : ReadResult
deriving DecidableEq, Repr

/-- Go r.Header.Get: first value for the (canonical) key, "" when absent. -/
def headerGet (hs : List (String × String)) (k : String) : String :=
  match hs.find? (fun kv => kv.1 == k) with
  | some kv => kv.2
  | none => ""

/-- The encoding/json calls made by the handlers, abstracted: Unmarshal may
fail (none), Marshal of these structs cannot. -/
structure Codec where
  decodeChatRequest : String → Option OpenAIChatRequest
  encodeChatRequest : OpenAIChatRequest → String
  decodeWebUIResponse : String → Option OpenWebUIChatResponse
  encodeChatResponse : OpenAIChatResponse → String

/-- The ambient effects: Client.Do, time.Now().Unix(), randomString. -/
structure World where
  doCall : OutboundCall → CallResult
  nowUnix : Int
  freshId : String

/-- Lines 337-354 of openai.go: the OpenAIChatResponse synthesized after a
successful upstream round trip. -/
def synthesizeChatResponse (req : OpenAIChatRequest) (webui : OpenWebUIChatResponse)
    (now : Int) (fresh : String) : OpenAIChatResponse :=
  { id := "chatcmpl-" ++ fresh
    object := "chat.completion"
    created := now
    model := req.model
    choices := [{ index := 0, message := webui.message, finishReason := "stop" }]
    usage := { promptTokens := 0, completionTokens := 0, totalTokens := 0 } }

/-- The outbound POST to `<upstream>/chat` built by handleChatCompletions:
Content-Type set to application/json, Authorization relayed when non-empty,
body the re-marshalled request. -/
def chatUpstreamCall (cfg : Config) (c : Codec) (r : Request)
    (req : OpenAIChatRequest) : OutboundCall :=
  { method := "POST"
    url := cfg.openWebUIURL ++ "/chat"
    headers :=
      if headerGet r.headers "Authorization" != "" then
        [("Content-Type", "application/json"),
         ("Authorization", headerGet r.headers "Authorization")]
      else
        [("Content-Type", "application/json")]
    body := some (c.encodeChatRequest req)
    timeoutSec := none }

/-- handleChatCompletions (openai.go lines 265-362), step for step:
read body (err → 400); Unmarshal (err → 400); Marshal and POST to
`<upstream>/chat`; transport error → 502; status ≠ 200 → 502 relaying the
upstream body; read/Unmarshal of the upstream body failing → 500; otherwise
synthesize the response and write it with 200. -/
def handleChatCompletions (cfg : Config) (c : Codec) (w : World) (r : Request) : Outcome :=
  match r.bodyRead with
  | .failed _ => ⟨httpError "Failed to read request body" 400, []⟩
  | .ok body =>
    match c.decodeChatRequest body with
    | none => ⟨httpError "Invalid JSON format" 400, []⟩
    | some openaiReq =>
      let call := chatUpstreamCall cfg c r openaiReq
      match w.doCall call with
      | .transportError => ⟨httpError "Failed to contact Open-WebUI" 502, [call]⟩
      | .reply resp =>
        if resp.status ≠ 200 then
          ⟨httpError ("Open-WebUI Error (" ++ toString resp.status ++ "): "
              ++ readAllIgnoringError resp.body) 502, [call]⟩
        else
          match resp.body with
          | .failed _ => ⟨httpError "Failed to read WebUI response" 500, [call]⟩
          | .ok webuiRespBody =>
            match c.decodeWebUIResponse webuiRespBody with
            | none => ⟨httpError "Invalid WebUI response format" 500, [call]⟩
            | some webuiResp =>
              ⟨{ status := 200
                 headers := [("Content-Type", "application/json")]
                 body := c.encodeChatResponse
                   (synthesizeChatResponse openaiReq webuiResp w.nowUnix w.freshId) },
               [call]⟩

/-- strings.TrimPrefix(path, "/v1"): drop the leading "/v1" when present,
else return the path unchanged (character-level; "/v1" is ASCII, so this
coincides with Go's byte-level trim). -/
def trimV1 (p : String) : String :=
  if "/v1".data.isPrefixOf p.data then ⟨p.data.drop 3⟩ else p

/-- The header copy loop of forwardAndTransform: every inbound header except
Host and Content-Length. -/
def filterHopHeaders (hs : List (String × String)) : List (String × String) :=
  hs.filter (fun kv => kv.1 != "Host" && kv.1 != "Content-Length")

/-- The outbound call built by forwardAndTransform: same method, target URL
`<upstream>` plus the path with the /v1 prefix trimmed, filtered headers,
body only for POST. -/
def forwardCall (cfg : Config) (r : Request) (b : Option String) : OutboundCall :=
  { method := r.method
    url := cfg.openWebUIURL ++ trimV1 r.path
    headers := filterHopHeaders r.headers
    body := b
    timeoutSec := none }

/-- forwardAndTransform (openai.go lines 364-426): POST bodies are read
(read error → 400) and forwarded, other methods forward no body; a transport
error → 502; otherwise the upstream status, headers and body are relayed
verbatim for every path — there is no per-path reshaping in the function. -/
def forwardAndTransform (cfg : Config) (w : World) (r : Request) : Outcome :=
  let relay : Option String → Outcome := fun b =>
    let call := forwardCall cfg r b
    match w.doCall call with
    | .transportError => ⟨httpError "Failed to contact upstream service" 502, [call]⟩
    | .reply resp => ⟨⟨resp.status, resp.headers, readAllIgnoringError resp.body⟩, [call]⟩
  if r.method == "POST" then
    match r.bodyRead with
    | .failed _ => ⟨httpError "Failed to read request body" 400, []⟩
    | .ok body => relay (some body)
  else
    relay none

/-- The health probe call: GET `<upstream>/health` via a Client with a
5-second Timeout (openai.go lines 431, 438). -/
def healthProbeCall (cfg : Config) : OutboundCall :=
  { method := "GET"
    url := cfg.openWebUIURL ++ "/health"
    headers := []
    body := none
    timeoutSec := some 5 }

/-- handleHealth (openai.go lines 428-456): probe errors/timeouts → 503
"Upstream service unavailable"; non-200 upstream status → 503 reporting the
status; otherwise 200 "OK". -/
def handleHealth (cfg : Config) (w : World) : Outcome :=
  let call := healthProbeCall cfg
  match w.doCall call with
  | .transportError => ⟨httpError "Upstream service unavailable" 503, [call]⟩
  | .reply resp =>
    if resp.status ≠ 200 then
      ⟨httpError ("Upstream service unhealthy (status: " ++ toString resp.status ++ ")") 503,
       [call]⟩
    else
      ⟨⟨200, [], "OK"⟩, [call]⟩

/-- handleRoot (openai.go lines 248-263): methods other than POST/GET → 405;
the chat-completions path goes to the translator; everything else to the
passthrough forwarder. -/
def handleRoot (cfg : Config) (c : Codec) (w : World) (r : Request) : Outcome :=
  if r.method != "POST" && r.method != "GET" then
    ⟨httpError "Method not allowed" 405, []⟩
  else if r.path == "/v1/chat/completions" then
    handleChatCompletions cfg c w r
  else
    forwardAndTransform cfg w r

/-- The main ServeMux (setupServers, lines 164-166): the exact pattern
"/healthz" is served by handleHealth for any method; the catch-all "/"
pattern sends every other path to handleRoot. -/
def mainMuxServe (cfg : Config) (c : Codec) (w : World) (r : Request) : Outcome :=
  if r.path == "/healthz" then handleHealth cfg w
  else handleRoot cfg c w r

/-!
Lifecycle controller: the shutdown signal is a channel (`stopChan`) whose
close is guarded by a sync.Once (`closeOnce`), shared by the quit endpoint
handler and the public listener goroutine (processServe, lines 235-241).
-/

/-- The shared shutdown-coordination state: the sync.Once flag, whether
stopChan has been closed, and how many times close actually ran. -/
structure ShutdownState where
  onceDone : Bool
  chanClosed : Bool
  closeCount : Nat
deriving DecidableEq, Repr

def initShutdownState : ShutdownState :=
  { onceDone := false, chanClosed := false, closeCount := 0 }

/-- close(stopChan): Go panics on closing an already-closed channel. -/
def closeStopChan (s : ShutdownState) : Except String ShutdownState :=
  if s.chanClosed then .error "close of closed channel"
  else .ok { s with chanClosed := true, closeCount := s.closeCount + 1 }

/-- closeOnce.Do(func() \x7b close(stopChan) \x7d): the body runs only the
first time; later calls are no-ops. -/
def closeOnceDo (s : ShutdownState) : Except String ShutdownState :=
  if s.onceDone then .ok s
  else
    match closeStopChan s with
    | .error e => .error e
    | .ok s2 => .ok { s2 with onceDone := true }

/-- The three shutdown triggers named by the spec. -/
inductive Trigger where
  | osSignal
  | controlCall
  | publicListenerError
deriving DecidableEq, Repr

/-- Which triggers go through closeOnce.Do: the control endpoint
(handleQuitSignal, line 136) and the public listener error branch
(runMainServer, line 146) do; an OS signal is consumed directly by the
select in waitForShutdownSignal (lines 195-200), which never closes
stopChan. -/
def firesClose : Trigger → Bool
  | .osSignal => false
  | .controlCall => true
  | .publicListenerError => true

/-- Effect of one trigger on the shared shutdown state. -/
def applyTrigger (s : ShutdownState) : Trigger → Except String ShutdownState
  | .osSignal => .ok s
  | .controlCall => closeOnceDo s
  | .publicListenerError => closeOnceDo s

/-- Run a whole interleaving of triggers, stopping at the first panic. -/
def runTriggers : ShutdownState → List Trigger → Except String ShutdownState
  | s, [] => .ok s
  | s, t :: ts =>
    match applyTrigger s t with
    | .error e => .error e
    | .ok s2 => runTriggers s2 ts

/-- Outcome of srv.ListenAndServe(): http.ErrServerClosed after a graceful
Shutdown, or any other (fatal) error. -/
inductive ServeResult where
  | closedGracefully
  | listenError
deriving DecidableEq, Repr

/-- runMainServer (lines 141-148): a fatal ListenAndServe error fires
closeOnce.Do(close); ErrServerClosed does not. -/
def runMainServerEffect (res : ServeResult) (s : ShutdownState) : Except String ShutdownState :=
  match res with
  | .closedGracefully => .ok s
  | .listenError => closeOnceDo s

/-- runQuitServer (lines 151-157): a ListenAndServe error is only logged;
the shutdown state is untouched in every case. -/
def runQuitServerEffect (res : ServeResult) (s : ShutdownState) : Except String ShutdownState :=
  .ok s

/-- Lifecycle phases relevant to the Running → Draining transition. -/
inductive Phase where
  | running
  | draining
deriving DecidableEq, Repr

/-- waitForShutdownSignal (lines 190-201) unblocks — moving the process from
Running to Draining — exactly when an OS signal has arrived or stopChan is
closed. -/
def phaseAfter (osSignalArrived : Bool) (s : ShutdownState) : Phase :=
  if osSignalArrived || s.chanClosed then .draining else .running

/-- Events observable at the /quitquitquit handler, in program order. -/
inductive QuitEvent where
  | wroteStatus (code : Nat)
  | wroteBody (s : String)
  | firedClose
deriving DecidableEq, Repr

/-- handleQuitSignal (lines 130-138): for any method (the mux pattern has no
method filter), write 200, write "Initiating shutdown...", then run
closeOnce.Do(close). -/
def handleQuitSignal (method : String) (s : ShutdownState) :
    List QuitEvent × Except String ShutdownState :=
  ([.wroteStatus 200, .wroteBody "Initiating shutdown...", .firedClose],
   closeOnceDo s)

/-!
Concrete fixtures used by witnesses and counterexamples.
-/

def cfgW : Config :=
  { port := 8080, openWebUIURL := "http://upstream", quitPort := 8081,
    shutdownTimeoutSec := 15 }

def reqValW : OpenAIChatRequest :=
  { model := "m", messages := [{ role := "user", content := "hi" }] }

def webuiRespW : OpenWebUIChatResponse :=
  { message := { role := "assistant", content := "hello" }, status := "ok" }

def codecW : Codec :=
  { decodeChatRequest := fun s => if s == "reqjson" then some reqValW else none
    encodeChatRequest := fun _ => "fwdjson"
    decodeWebUIResponse := fun s => if s == "upjson" then some webuiRespW else none
    encodeChatResponse := fun _ => "respjson" }

/-- A codec on which every decode fails; the chat path is never reached in
the scenarios that use it. -/
def trivialCodecW : Codec :=
  { decodeChatRequest := fun _ => none
    encodeChatRequest := fun _ => ""
    decodeWebUIResponse := fun _ => none
    encodeChatResponse := fun _ => "" }

def okWorldW : World :=
  { doCall := fun _ => .reply ⟨200, [], .ok "upjson"⟩
    nowUnix := 1700000000
    freshId := "abc" }

def errWorldW : World :=
  { doCall := fun _ => .transportError, nowUnix := 0, freshId := "abc" }

def badStatusWorldW : World :=
  { doCall := fun _ => .reply ⟨500, [], .ok "boom"⟩, nowUnix := 0, freshId := "abc" }

def chatReqW : Request :=
  { method := "POST", path := "/v1/chat/completions", headers := [],
    bodyRead := .ok "reqjson" }

def badChatReqW : Request :=
  { method := "POST", path := "/v1/chat/completions", headers := [],
    bodyRead := .ok "notjson" }

end Gateway

namespace Gateway

/-- C1: a successful chat-completion round trip (inbound body parses, upstream
replies 200 with a decodable body) yields a 200 response encoding the
synthesized OpenAIChatResponse, whose choices are exactly one choice with
index 0 and finish_reason "stop" wrapping the upstream message, whose object
is "chat.completion", whose id is prefixed "chatcmpl-", whose model echoes the
inbound model verbatim, and whose usage fields are all zero. -/
theorem chat_roundtrip_response_shape
    (cfg : Config) (c : Codec) (w : World) (r : Request)
    (raw ub : String) (req : OpenAIChatRequest) (hs : List (String × String))
    (wr : OpenWebUIChatResponse)
    (hread : r.bodyRead = ReadResult.ok raw)
    (hdec : c.decodeChatRequest raw = some req)
    (hcall : w.doCall (chatUpstreamCall cfg c r req)
      = CallResult.reply ⟨200, hs, ReadResult.ok ub⟩)
    (hwdec : c.decodeWebUIResponse ub = some wr) :
    handleChatCompletions cfg c w r =
      ⟨⟨200, [("Content-Type", "application/json")],
        c.encodeChatResponse (synthesizeChatResponse req wr w.nowUnix w.freshId)⟩,
       [chatUpstreamCall cfg c r req]⟩ ∧
    (synthesizeChatResponse req wr w.nowUnix w.freshId).choices
      = [{ index := 0, message := wr.message, finishReason := "stop" }] ∧
    (synthesizeChatResponse req wr w.nowUnix w.freshId).object = "chat.completion" ∧
    (∃ t, (synthesizeChatResponse req wr w.nowUnix w.freshId).id = "chatcmpl-" ++ t) ∧
    (synthesizeChatResponse req wr w.nowUnix w.freshId).model = req.model ∧
    (synthesizeChatResponse req wr w.nowUnix w.freshId).usage
      = { promptTokens := 0, completionTokens := 0, totalTokens := 0 } := by
  refine ⟨?_, rfl, rfl, ⟨w.freshId, rfl⟩, rfl, rfl⟩
  simp [handleChatCompletions, hread, hdec, hcall, hwdec]

theorem chat_roundtrip_response_shape_witness :
    handleChatCompletions cfgW codecW okWorldW chatReqW =
      ⟨⟨200, [("Content-Type", "application/json")], "respjson"⟩,
       [chatUpstreamCall cfgW codecW chatReqW reqValW]⟩ ∧
    (synthesizeChatResponse reqValW webuiRespW okWorldW.nowUnix okWorldW.freshId).model
      = "m" :=
  ⟨(chat_roundtrip_response_shape cfgW codecW okWorldW chatReqW
      "reqjson" "upjson" reqValW [] webuiRespW rfl rfl rfl rfl).1,
   (chat_roundtrip_response_shape cfgW codecW okWorldW chatReqW
      "reqjson" "upjson" reqValW [] webuiRespW rfl rfl rfl rfl).2.2.2.2.1⟩

/-- C5: a request on the chat-completions path whose body does not decode as
a ChatRequest gets a 400 "Invalid JSON format" and the gateway performs no
outbound upstream call. -/
theorem malformed_chat_body_400_no_upstream
    (cfg : Config) (c : Codec) (w : World) (r : Request) (raw : String)
    (hpath : r.path = "/v1/chat/completions")
    (hmethod : r.method = "POST")
    (hread : r.bodyRead = ReadResult.ok raw)
    (hdec : c.decodeChatRequest raw = none) :
    mainMuxServe cfg c w r = ⟨httpError "Invalid JSON format" 400, []⟩ ∧
    (mainMuxServe cfg c w r).upstreamCalls = [] := by
  have h : mainMuxServe cfg c w r = ⟨httpError "Invalid JSON format" 400, []⟩ := by
    simp [mainMuxServe, handleRoot, handleChatCompletions, hpath, hmethod, hread, hdec]
  exact ⟨h, by rw [h]⟩

theorem malformed_chat_body_400_no_upstream_witness :
    mainMuxServe cfgW codecW okWorldW badChatReqW
      = ⟨httpError "Invalid JSON format" 400, []⟩ ∧
    (mainMuxServe cfgW codecW okWorldW badChatReqW).upstreamCalls = [] :=
  malformed_chat_body_400_no_upstream cfgW codecW okWorldW badChatReqW
    "notjson" rfl rfl rfl (by decide)

/-- C6: when the upstream answers the chat call with any status other than
200, the gateway answers 502 and the upstream body appears verbatim inside
the error payload. -/
theorem upstream_non200_502_relay
    (cfg : Config) (c : Codec) (w : World) (r : Request)
    (raw b : String) (st : Nat) (hs : List (String × String))
    (req : OpenAIChatRequest)
    (hread : r.bodyRead = ReadResult.ok raw)
    (hdec : c.decodeChatRequest raw = some req)
    (hcall : w.doCall (chatUpstreamCall cfg c r req)
      = CallResult.reply ⟨st, hs, ReadResult.ok b⟩)
    (hst : st ≠ 200) :
    handleChatCompletions cfg c w r =
      ⟨httpError ("Open-WebUI Error (" ++ toString st ++ "): " ++ b) 502,
       [chatUpstreamCall cfg c r req]⟩ ∧
    (∃ pre post, (handleChatCompletions cfg c w r).response.body = pre ++ b ++ post) := by
  have h : handleChatCompletions cfg c w r =
      ⟨httpError ("Open-WebUI Error (" ++ toString st ++ "): " ++ b) 502,
       [chatUpstreamCall cfg c r req]⟩ := by
    simp [handleChatCompletions, hread, hdec, hcall, hst, readAllIgnoringError]
  exact ⟨h, ⟨"Open-WebUI Error (" ++ toString st ++ "): ", "\n", by rw [h]; rfl⟩⟩

theorem upstream_non200_502_relay_witness :
    handleChatCompletions cfgW codecW badStatusWorldW chatReqW =
      ⟨httpError ("Open-WebUI Error (" ++ toString (500 : Nat) ++ "): " ++ "boom") 502,
       [chatUpstreamCall cfgW codecW chatReqW reqValW]⟩ ∧
    (∃ pre post,
      (handleChatCompletions cfgW codecW badStatusWorldW chatReqW).response.body
        = pre ++ "boom" ++ post) :=
  upstream_non200_502_relay cfgW codecW badStatusWorldW chatReqW
    "reqjson" "boom" 500 [] reqValW rfl rfl rfl (by decide)

/-- C7: the passthrough path performs exactly one outbound call carrying the
inbound method, the inbound headers minus Host and Content-Length, the
inbound body (for POST; other methods forward no body), to the upstream URL
built from the path with the /v1 prefix stripped; the upstream status,
headers and body are relayed verbatim, whatever the status. -/
theorem passthrough_forwards_and_relays
    (cfg : Config) (w : World) (r : Request)
    (body rb : String) (st : Nat) (hs : List (String × String))
    (hread : r.bodyRead = ReadResult.ok body)
    (hcall : w.doCall (forwardCall cfg r (if r.method == "POST" then some body else none))
      = CallResult.reply ⟨st, hs, ReadResult.ok rb⟩) :
    forwardAndTransform cfg w r =
      ⟨⟨st, hs, rb⟩,
       [forwardCall cfg r (if r.method == "POST" then some body else none)]⟩ ∧
    (forwardCall cfg r (if r.method == "POST" then some body else none)).method
      = r.method ∧
    (forwardCall cfg r (if r.method == "POST" then some body else none)).url
      = cfg.openWebUIURL ++ trimV1 r.path ∧
    (∀ k v, (k, v) ∈ (forwardCall cfg r
        (if r.method == "POST" then some body else none)).headers ↔
      ((k, v) ∈ r.headers ∧ k ≠ "Host" ∧ k ≠ "Content-Length")) := by
  refine ⟨?_, rfl, rfl, ?_⟩
  · by_cases hm : r.method == "POST"
    · rw [if_pos hm] at hcall
      simp [forwardAndTransform, hm, hread, hcall, readAllIgnoringError]
    · rw [if_neg hm] at hcall
      simp [forwardAndTransform, Bool.of_not_eq_true hm, hread, hcall, readAllIgnoringError]
  · intro k v
    simp [forwardCall, filterHopHeaders, List.mem_filter, and_assoc]

def passReqW : Request :=
  { method := "GET", path := "/v1/other", headers := [("Host", "g"), ("X-A", "1")],
    bodyRead := .ok "" }

def passWorldW : World :=
  { doCall := fun _ => .reply ⟨204, [("X-Up", "u")], .ok "payload"⟩,
    nowUnix := 0, freshId := "abc" }

theorem passthrough_forwards_and_relays_witness :
    forwardAndTransform cfgW passWorldW passReqW =
      ⟨⟨204, [("X-Up", "u")], "payload"⟩, [forwardCall cfgW passReqW none]⟩ ∧
    (forwardCall cfgW passReqW none).headers = [("X-A", "1")] :=
  ⟨(passthrough_forwards_and_relays cfgW passWorldW passReqW
      "" "payload" 204 [("X-Up", "u")] rfl rfl).1,
   by decide⟩

/-- C8: /healthz is served by the health prober for the configured upstream:
it issues exactly one GET to upstream + "/health" through a client with a
5-second timeout; a transport error or timeout yields 503 "Upstream service
unavailable", a non-200 upstream status yields 503 reporting that status,
and a 200 yields a fixed 200 "OK" body. -/
theorem healthz_probe_contract (cfg : Config) (w : World) :
    (∀ (c : Codec) (r : Request), r.path = "/healthz" →
      mainMuxServe cfg c w r = handleHealth cfg w) ∧
    (handleHealth cfg w).upstreamCalls = [healthProbeCall cfg] ∧
    healthProbeCall cfg =
      { method := "GET", url := cfg.openWebUIURL ++ "/health", headers := [],
        body := none, timeoutSec := some 5 } ∧
    (w.doCall (healthProbeCall cfg) = CallResult.transportError →
      (handleHealth cfg w).response = httpError "Upstream service unavailable" 503) ∧
    (∀ st hs b, w.doCall (healthProbeCall cfg) = CallResult.reply ⟨st, hs, b⟩ →
      st ≠ 200 →
      (handleHealth cfg w).response =
        httpError ("Upstream service unhealthy (status: " ++ toString st ++ ")") 503) ∧
    (∀ hs b, w.doCall (healthProbeCall cfg) = CallResult.reply ⟨200, hs, b⟩ →
      (handleHealth cfg w).response = ⟨200, [], "OK"⟩) := by
  refine ⟨?_, ?_, rfl, ?_, ?_, ?_⟩
  · intro c r hp
    simp [mainMuxServe, hp]
  · rcases hd : w.doCall (healthProbeCall cfg) with _ | resp
    · simp [handleHealth, hd]
    · simp only [handleHealth, hd]
      split <;> rfl
  · intro hd
    simp [handleHealth, hd]
  · intro st hs b hd hst
    simp [handleHealth, hd, hst]
  · intro hs b hd
    simp [handleHealth, hd]

theorem healthz_probe_contract_witness :
    mainMuxServe cfgW trivialCodecW errWorldW
        { method := "GET", path := "/healthz", headers := [], bodyRead := .ok "" }
      = handleHealth cfgW errWorldW ∧
    (handleHealth cfgW errWorldW).response = httpError "Upstream service unavailable" 503 ∧
    (handleHealth cfgW okWorldW).response = ⟨200, [], "OK"⟩ ∧
    (handleHealth cfgW badStatusWorldW).response =
      httpError ("Upstream service unhealthy (status: " ++ toString (500 : Nat) ++ ")") 503 :=
  ⟨(healthz_probe_contract cfgW errWorldW).1 trivialCodecW
      { method := "GET", path := "/healthz", headers := [], bodyRead := .ok "" } rfl,
   (healthz_probe_contract cfgW errWorldW).2.2.2.1 rfl,
   (healthz_probe_contract cfgW okWorldW).2.2.2.2.2 [] (.ok "upjson") rfl,
   (healthz_probe_contract cfgW badStatusWorldW).2.2.2.2.1 500 [] (.ok "boom")
     rfl (by decide)⟩

/-- The upstream model-array payload of the spec's Scenario C. -/
def modelsUpstreamBody : String :=
  "[\x7b\"id\":\"m1\",\"name\":\"Model 1\",\"status\":\"active\"\x7d]"

/-- Modelled from the spec: the OpenAI-style list envelope that §4.3 and
Scenario C say a /v1/models response is reshaped into. It exists nowhere in
the source; it is stated here only to compare against the code's behaviour. -/
def specModelsEnvelope : String :=
  "\x7b\"object\":\"list\",\"data\":[\x7b\"id\":\"m1\",\"object\":\"model\",\"owned_by\":\"open-webui\"\x7d]\x7d"

def modelsWorldW : World :=
  { doCall := fun _ =>
      .reply ⟨200, [("Content-Type", "application/json")], .ok modelsUpstreamBody⟩,
    nowUnix := 0, freshId := "abc" }

def modelsReqW : Request :=
  { method := "GET", path := "/v1/models", headers := [], bodyRead := .ok "" }

/-- C2 counterexample: on GET /v1/models with the upstream of Scenario C, the
gateway's body is the upstream array streamed through verbatim, which is not
the spec's list envelope — no transformation happens. -/
theorem models_path_streams_counterexample :
    (mainMuxServe cfgW trivialCodecW modelsWorldW modelsReqW).response.body
      = modelsUpstreamBody ∧
    modelsUpstreamBody ≠ specModelsEnvelope := by
  constructor
  · rfl
  · decide

/-- C2 amended: GET /v1/models takes the generic passthrough path like every
other path: the upstream status, headers and body are relayed verbatim, with
no list-envelope reshaping and no 500 on a malformed model array. -/
theorem models_path_passthrough
    (cfg : Config) (c : Codec) (w : World) (r : Request)
    (st : Nat) (hs : List (String × String)) (rb : String)
    (hm : r.method = "GET") (hp : r.path = "/v1/models")
    (hcall : w.doCall (forwardCall cfg r none) = CallResult.reply ⟨st, hs, ReadResult.ok rb⟩) :
    mainMuxServe cfg c w r = ⟨⟨st, hs, rb⟩, [forwardCall cfg r none]⟩ ∧
    (forwardCall cfg r none).url = cfg.openWebUIURL ++ "/models" := by
  constructor
  · simp [mainMuxServe, handleRoot, forwardAndTransform, hm, hp, hcall,
      readAllIgnoringError]
  · have ht : trimV1 "/v1/models" = "/models" := by decide
    simp [forwardCall, hp, ht]

theorem models_path_passthrough_witness :
    mainMuxServe cfgW trivialCodecW modelsWorldW modelsReqW =
      ⟨⟨200, [("Content-Type", "application/json")], modelsUpstreamBody⟩,
       [forwardCall cfgW modelsReqW none]⟩ ∧
    (forwardCall cfgW modelsReqW none).url = cfgW.openWebUIURL ++ "/models" :=
  models_path_passthrough cfgW trivialCodecW modelsWorldW modelsReqW
    200 [("Content-Type", "application/json")] modelsUpstreamBody rfl rfl rfl

def deleteHealthzReqW : Request :=
  { method := "DELETE", path := "/healthz", headers := [], bodyRead := .ok "" }

def healthyWorldW : World :=
  { doCall := fun _ => .reply ⟨200, [], .ok ""⟩, nowUnix := 0, freshId := "abc" }

/-- C9 counterexample: a DELETE to /healthz is dispatched by the mux to the
health prober before any method check, so the gateway answers 200 (after
contacting the upstream), not 405. -/
theorem delete_healthz_counterexample :
    (mainMuxServe cfgW trivialCodecW healthyWorldW deleteHealthzReqW).response.status
      = 200 ∧
    (mainMuxServe cfgW trivialCodecW healthyWorldW deleteHealthzReqW).upstreamCalls
      = [healthProbeCall cfgW] ∧
    (200 : Nat) ≠ 405 := by
  refine ⟨rfl, rfl, by decide⟩

/-- C9 amended: for every path other than /healthz, a method that is neither
GET nor POST is rejected with 405 and no upstream call; /healthz itself is
served by the health prober for any method. -/
theorem non_get_post_405_outside_healthz
    (cfg : Config) (c : Codec) (w : World) (r : Request)
    (hp : r.path ≠ "/healthz")
    (hg : r.method ≠ "GET") (hpost : r.method ≠ "POST") :
    mainMuxServe cfg c w r = ⟨httpError "Method not allowed" 405, []⟩ := by
  simp [mainMuxServe, handleRoot, hp, hg, hpost]

theorem non_get_post_405_outside_healthz_witness :
    mainMuxServe cfgW trivialCodecW healthyWorldW
        { method := "DELETE", path := "/v1/models", headers := [], bodyRead := .ok "" }
      = ⟨httpError "Method not allowed" 405, []⟩ :=
  non_get_post_405_outside_healthz cfgW trivialCodecW healthyWorldW
    { method := "DELETE", path := "/v1/models", headers := [], bodyRead := .ok "" }
    (by decide) (by decide) (by decide)

/-- closeOnce.Do(close) run from any state satisfying the Once/channel
coupling invariant lands, without panicking, in the unique closed state. -/
theorem closeOnceDo_reaches_closed (s : ShutdownState)
    (h1 : s.chanClosed = s.onceDone)
    (h2 : s.closeCount = if s.onceDone then 1 else 0) :
    ∃ s2, closeOnceDo s = Except.ok s2 ∧
      s2.chanClosed = true ∧ s2.onceDone = true ∧ s2.closeCount = 1 := by
  by_cases hd : s.onceDone = true
  · refine ⟨s, by simp [closeOnceDo, hd], by rw [h1, hd], hd, by rw [h2, hd]; rfl⟩
  · have hd2 : s.onceDone = false := by
      cases hs : s.onceDone
      · rfl
      · exact absurd hs hd
    have hc : s.chanClosed = false := by rw [h1, hd2]
    refine ⟨{ onceDone := true, chanClosed := true, closeCount := s.closeCount + 1 },
      ?_, rfl, rfl, ?_⟩
    · simp [closeOnceDo, hd2, closeStopChan, hc]
    · rw [h2, hd2]
      rfl

/-- Invariant of the trigger interleaving: every run succeeds (no panic),
the Once flag and the channel-closed flag travel together, close runs at
most once, and the Once flag ends set exactly when some trigger in the
sequence goes through the close guard. -/
theorem runTriggers_invariant (ts : List Trigger) :
    ∀ s : ShutdownState, s.chanClosed = s.onceDone →
      s.closeCount = (if s.onceDone then 1 else 0) →
      ∃ s2, runTriggers s ts = Except.ok s2 ∧
        s2.chanClosed = s2.onceDone ∧
        s2.closeCount = (if s2.onceDone then 1 else 0) ∧
        s2.onceDone = (s.onceDone || ts.any firesClose) := by
  induction ts with
  | nil =>
    intro s h1 h2
    exact ⟨s, rfl, h1, h2, by simp⟩
  | cons t ts ih =>
    intro s h1 h2
    cases t with
    | osSignal =>
      rcases ih s h1 h2 with ⟨s2, hrun, ha, hb, hc⟩
      refine ⟨s2, ?_, ha, hb, ?_⟩
      · simpa [runTriggers, applyTrigger] using hrun
      · simp [List.any_cons, firesClose, hc]
    | controlCall =>
      rcases closeOnceDo_reaches_closed s h1 h2 with ⟨sm, hm, hc1, hc2, hc3⟩
      rcases ih sm (hc1.trans hc2.symm) (by rw [hc3, hc2]; rfl) with
        ⟨s2, hrun, ha, hb, hc⟩
      refine ⟨s2, ?_, ha, hb, ?_⟩
      · simp only [runTriggers, applyTrigger, hm]
        exact hrun
      · simp [List.any_cons, firesClose, hc, hc2]
    | publicListenerError =>
      rcases closeOnceDo_reaches_closed s h1 h2 with ⟨sm, hm, hc1, hc2, hc3⟩
      rcases ih sm (hc1.trans hc2.symm) (by rw [hc3, hc2]; rfl) with
        ⟨s2, hrun, ha, hb, hc⟩
      refine ⟨s2, ?_, ha, hb, ?_⟩
      · simp only [runTriggers, applyTrigger, hm]
        exact hrun
      · simp [List.any_cons, firesClose, hc, hc2]

/-- C3 counterexample: a sequence consisting of one OS signal is a sequence
of shutdown triggers after which close(stopChan) has run zero times, not
exactly once — the signal is consumed by the select in
waitForShutdownSignal and never reaches closeOnce. -/
theorem os_signal_only_never_closes :
    runTriggers initShutdownState [Trigger.osSignal] = Except.ok initShutdownState ∧
    initShutdownState.closeCount = 0 ∧ (0 : Nat) ≠ 1 := by
  refine ⟨rfl, rfl, by decide⟩

/-- C3 amended: over every interleaving of OS signals, control calls and
public-listener fatal errors, no trigger panics or errors, close(stopChan)
runs at most once, and it runs exactly once precisely when the sequence
contains at least one trigger that goes through closeOnce (a control call or
a public-listener fatal error); OS signals alone never invoke it. -/
theorem shutdown_close_at_most_once (ts : List Trigger) :
    ∃ s, runTriggers initShutdownState ts = Except.ok s ∧
      s.closeCount = (if ts.any firesClose then 1 else 0) ∧
      s.closeCount ≤ 1 := by
  rcases runTriggers_invariant ts initShutdownState rfl rfl with ⟨s2, hrun, ha, hb, hc⟩
  have hcc : s2.closeCount = (if ts.any firesClose then 1 else 0) := by
    rw [hb, hc]
    simp [initShutdownState]
  refine ⟨s2, hrun, hcc, ?_⟩
  rw [hcc]
  split <;> omega

/-- C4: the failure promotion is asymmetric. The quit server's accept-loop
failure only logs: it leaves every shutdown state untouched and the phase
observed by waitForShutdownSignal unchanged — in particular it alone never
moves Running to Draining. A fatal error of the public listener goes through
closeOnce, closing stopChan, after which the phase is Draining. -/
theorem listener_failure_asymmetry :
    (∀ (res : ServeResult) (s : ShutdownState), runQuitServerEffect res s = Except.ok s) ∧
    (∀ (res : ServeResult) (s : ShutdownState),
      Except.map (phaseAfter false) (runQuitServerEffect res s)
        = Except.ok (phaseAfter false s)) ∧
    (∀ res : ServeResult,
      Except.map (phaseAfter false) (runQuitServerEffect res initShutdownState)
        = Except.ok Phase.running) ∧
    runMainServerEffect ServeResult.listenError initShutdownState =
      Except.ok { onceDone := true, chanClosed := true, closeCount := 1 } ∧
    phaseAfter false { onceDone := true, chanClosed := true, closeCount := 1 }
      = Phase.draining := by
  exact ⟨fun res s => rfl, fun res s => rfl, fun res => rfl, rfl, rfl⟩

/-- C10: for any HTTP method, the /quitquitquit handler first writes status
200, then the body "Initiating shutdown...", and only then fires the
once-guarded close; its behaviour does not depend on the method, and on the
very request that initiates shutdown (initial state) the close succeeds with
the channel closed — after the 200 and the body were already written. -/
theorem quit_endpoint_writes_200_before_close (m : String) (s : ShutdownState) :
    (handleQuitSignal m s).1 =
      [QuitEvent.wroteStatus 200, QuitEvent.wroteBody "Initiating shutdown...",
       QuitEvent.firedClose] ∧
    handleQuitSignal m s = handleQuitSignal "POST" s ∧
    (handleQuitSignal m s).2 = closeOnceDo s ∧
    (∃ s2, (handleQuitSignal m initShutdownState).2 = Except.ok s2 ∧
      s2.chanClosed = true) := by
  exact ⟨rfl, rfl, rfl,
    ⟨{ onceDone := true, chanClosed := true, closeCount := 1 }, rfl, rfl⟩⟩

end Gateway
